import Mathlib

/-!
Verification development for the GhostType backend
(`ghosttype/backend/server.py`, `ghosttype/backend/agent.py`,
`ghosttype/agentcore/server.py`).

The Python sources are shallowly embedded as executable Lean definitions:

* pure helpers (`classify_mode_type`, `build_message`,
  `build_multimodal_message`, `ModelConfig.from_request`, `_friendly_error`)
  become Lean functions over `String`;
* the per-connection mutable state of the `/generate` WebSocket endpoint
  (`agent`, `current_config`, `current_mode_type`, `cancel_event`) becomes an
  explicit `Session` record threaded through step functions;
* the worker thread (`_run_agent` plus `StreamingCallbackHandler`) becomes a
  recursion over the list of callback invocations the opaque agent performs,
  parameterised by the point at which the shared cancel flag is observed set
  and by the fate of each scheduled WebSocket send;
* the turn-resolution code (timeout path, `except` clauses) becomes
  `resolveTurn`, an explicit case split driven by the oracle booleans
  `timedOut` (the 120 s ceiling fired) and `graceFinished` (the worker task
  completed inside the 5 s grace window of `asyncio.wait`).

Wall-clock time and true thread interleavings are abstracted into these
oracle parameters; transport disconnects (WebSocketDisconnect), after which
nothing can be sent at all, are outside the model.  Theorems quantify over
all oracle values, so every schedule the abstraction can describe is covered.
-/

namespace GhostType

/-- Outbound protocol messages of the backend (server.py docstring, lines
211-222, plus `conversation_reset` from line 263). -/
inductive OutMsg
  | token (content : String)
  | done (content : String)
  | error (content : String)
  | cancelled
  | conversationReset
deriving DecidableEq, Repr

/-- A message is terminal when it ends a turn: `done`, `error` or
`cancelled` (spec section 5 ordering guarantee). -/
def isTerminal : OutMsg → Bool
  | .done _ => true
  | .error _ => true
  | .cancelled => true
  | _ => false

/-- A `token` streaming message. -/
def isToken : OutMsg → Bool
  | .token _ => true
  | _ => false

/-- Environment-variable defaults from `config.py` (fields the model
configuration falls back to). -/
structure EnvConfig where
  model_provider : String
  model_id : String
  aws_profile : String
  aws_region : String
deriving DecidableEq, Repr

/-- The optional `config` dict of a request: each key may be absent
(`data.get(key, "")` in `ModelConfig.from_request`). -/
structure ConfigDict where
  provider : Option String := none
  model_id : Option String := none
  aws_profile : Option String := none
  aws_region : Option String := none
deriving DecidableEq, Repr

/-- Per-request model configuration, `agent.py` lines 18-49.  All fields
default to the empty string exactly as in the dataclass. -/
structure ModelConfig where
  provider : String := ""
  model_id : String := ""
  aws_profile : String := ""
  aws_region : String := ""
deriving DecidableEq, Repr

/-- Python `x or default` on strings: the empty string is falsy. -/
def pyOrStr (x dflt : String) : String :=
  if x = "" then dflt else x

/-- Python `request.get("mode_type") or classify(...)`: `None` and the
empty string both fall through to the default. -/
def pyOrOpt (x : Option String) (dflt : String) : String :=
  match x with
  | none => dflt
  | some s => if s = "" then dflt else s

/-- `ModelConfig.from_request` (agent.py lines 27-37): a falsy `config`
value yields all defaults, otherwise each key is read with default `""`. -/
def ModelConfig.from_request : Option ConfigDict → ModelConfig
  | none => {}
  | some d =>
      { provider := d.provider.getD ""
        model_id := d.model_id.getD ""
        aws_profile := d.aws_profile.getD ""
        aws_region := d.aws_region.getD "" }

/-- Python's `str.lower()`, written over the character list so that it
reduces definitionally. -/
def strLower (s : String) : String :=
  String.mk (s.data.map Char.toLower)

/-- `effective_provider` (agent.py line 39-40): fall back to the env
default, then lowercase. -/
def ModelConfig.effective_provider (mc : ModelConfig) (env : EnvConfig) : String :=
  strLower (pyOrStr mc.provider env.model_provider)

/-- `effective_model_id` (agent.py line 42-43). -/
def ModelConfig.effective_model_id (mc : ModelConfig) (env : EnvConfig) : String :=
  pyOrStr mc.model_id env.model_id

/-- `effective_aws_profile` (agent.py line 45-46). -/
def ModelConfig.effective_aws_profile (mc : ModelConfig) (env : EnvConfig) : String :=
  pyOrStr mc.aws_profile env.aws_profile

/-- `effective_aws_region` (agent.py line 48-49). -/
def ModelConfig.effective_aws_region (mc : ModelConfig) (env : EnvConfig) : String :=
  pyOrStr mc.aws_region env.aws_region

/-- The effective configuration tuple of a request, together with the mode
type (the quantity the spec's testable-property section speaks about). -/
def effectiveTuple (env : EnvConfig) (mc : ModelConfig) (modeType : String) :
    String × String × String × String × String :=
  (mc.effective_provider env, mc.effective_model_id env,
   mc.effective_aws_profile env, mc.effective_aws_region env, modeType)

/-- `classify_mode_type` (server.py lines 149-159). -/
def classify_mode_type (mode context _prompt : String) : String :=
  if mode = "rewrite" ∨ mode = "fix" ∨ mode = "translate" then "draft"
  else if context ≠ "" then "draft"
  else "chat"

/-- `build_message` (server.py lines 162-176). -/
def build_message (prompt context mode : String) : String :=
  if mode = "rewrite" ∧ context ≠ "" then
    "Rewrite the following text:\n\n" ++ context ++ "\n\nInstructions: " ++ prompt
  else if mode = "fix" ∧ context ≠ "" then
    "Fix grammar and spelling in the following text:\n\n" ++ context
  else if mode = "translate" ∧ context ≠ "" then
    "Translate the following text. " ++ prompt ++ "\n\n" ++ context
  else if context ≠ "" then
    "Context (selected text from user\x27s application):\n\"\"\"\n" ++ context
      ++ "\n\"\"\"\n\nTask: " ++ prompt
  else
    prompt

/-- The agent message: either plain text or Bedrock Converse content blocks
(image bytes, then text), mirroring `build_multimodal_message`'s two return
shapes (server.py lines 179-203). -/
inductive UserMessage
  | text (s : String)
  | blocks (imageBytes : List Nat) (s : String)
deriving DecidableEq, Repr

/-- `build_multimodal_message` (server.py lines 179-203).  Base64 decoding
is abstracted as a decoder function `b64`; a `none` result is the decode
failure branch, which falls back to text-only. -/
def build_multimodal_message (b64 : String → Option (List Nat))
    (text : String) (screenshot_b64 : Option String) : UserMessage :=
  match screenshot_b64 with
  | none => .text text
  | some s =>
      if s = "" then .text text
      else
        match b64 s with
        | none => .text text
        | some bytes => .blocks bytes text

/-- Substring containment on character lists: `needle` occurs contiguously
inside `hay` (Python's `needle in hay`). -/
def charsHas (hay needle : List Char) : Bool :=
  (List.range (hay.length + 1)).any (fun i => needle.isPrefixOf (hay.drop i))

/-- Case-insensitive substring test: `sub in msg.lower()` for a lowercase
literal `sub`. -/
def lowerHas (msg sub : String) : Bool :=
  charsHas (strLower msg).toList sub.toList

/-- Case-sensitive substring test: `sub in msg`. -/
def strHas (msg sub : String) : Bool :=
  charsHas msg.toList sub.toList

/-- The data of an exception: the Python type name and `str(e)`. -/
structure ExnInfo where
  name : String
  msg : String
deriving DecidableEq, Repr

/-- `_friendly_error` (server.py lines 482-497): keyword-matched
user-facing error classification, generic fallback `"<kind>: <detail>"`. -/
def friendly_error (e : ExnInfo) : String :=
  if lowerHas e.msg "rate" ∧ lowerHas e.msg "limit" then
    "Rate limit exceeded. Please wait a moment and try again."
  else if lowerHas e.msg "authentication" ∨ lowerHas e.msg "credentials" then
    "Authentication error. Check your AWS credentials."
  else if lowerHas e.msg "timeout" then
    "Request timed out. The model may be overloaded — try again."
  else if strHas e.msg "ExpiredTokenException" ∨ strHas e.msg "ExpiredToken" then
    "AWS credentials expired. Run tokenmaster to refresh."
  else
    e.name ++ ": " ++ e.msg

/-- The fixed generation-timeout ceiling, seconds (server.py line 143). -/
def GENERATION_TIMEOUT : Int := 120

/-- The top-of-loop timeout test (server.py lines 347-348):
`remaining = GENERATION_TIMEOUT - (now - gen_start); remaining <= 0`. -/
def timeoutTriggered (elapsed : Int) : Bool :=
  GENERATION_TIMEOUT - elapsed ≤ 0

/-- Timeout error content (server.py line 444). -/
def timeoutErrorContent : String :=
  "Generation timed out. Try a shorter conversation or start a new one."

/-- An agent instance as the connection sees it: an identity (so reuse
versus rebuild is observable) plus the configuration and mode type
`create_agent` was called with. -/
structure AgentInst where
  id : Nat
  cfg : ModelConfig
  modeType : String
deriving DecidableEq, Repr

/-- Per-connection mutable state of the `/generate` endpoint
(server.py lines 229-234): the cached agent, the binding it was built
with, and the shared cancel flag.  `agentCounter` supplies fresh
identities for newly built agents. -/
structure Session where
  agent : Option AgentInst := none
  current_config : Option ModelConfig := none
  current_mode_type : Option String := none
  cancel_event : Bool := false
  agentCounter : Nat := 0
deriving DecidableEq, Repr

/-- A parsed inbound JSON object, with the fields the endpoint reads.
`typeField` is `request.get("type")`; the remaining fields carry the
`request.get(key, default)` results used by the generation path. -/
structure GenRequest where
  typeField : Option String := none
  prompt : String := ""
  context : String := ""
  mode : String := "generate"
  mode_type : Option String := none
  screenshot : Option String := none
  cfg : Option ConfigDict := none
deriving DecidableEq, Repr

/-- An inbound frame on the WebSocket: either JSON that failed to parse
(with the decode-error detail) or a parsed object. -/
inductive ClientMsg
  | malformed (detail : String)
  | parsed (r : GenRequest)
deriving DecidableEq, Repr

/-- The data recorded when a turn starts (server.py lines 279-335): which
agent instance will run, whether it was freshly built, the chosen mode
type, the built user message, and the state of the cancel flag when the
worker is started (the flag was cleared at line 280). -/
structure TurnStart where
  agentId : Nat
  agentFresh : Bool
  modeType : String
  userMessage : UserMessage
  cancelAtStart : Bool
deriving DecidableEq, Repr

/-- The rebuild test of server.py line 306:
`agent is None or model_config != current_config or mode_type != current_mode_type`.
Equality is the raw dataclass equality of `ModelConfig`. -/
def rebuildNeeded (s : Session) (mc : ModelConfig) (modeType : String) : Bool :=
  s.agent.isNone ∨ s.current_config ≠ some mc ∨ s.current_mode_type ≠ some modeType

/-- One iteration of the outer `while True` loop of the `/generate`
endpoint (server.py lines 238-335) up to the point where the worker
thread is started.  Returns the new session, the messages sent directly
by this dispatch, and — for accepted generation requests — the turn-start
record.  The turn itself (worker + resolution) is `runTurn` below. -/
def handleClientMsg (b64 : String → Option (List Nat))
    (s : Session) (m : ClientMsg) : Session × List OutMsg × Option TurnStart :=
  match m with
  | .malformed detail =>
      (s, [.error ("Invalid JSON: " ++ detail)], none)
  | .parsed r =>
      if r.typeField = some "cancel" then
        ({ s with cancel_event := true }, [], none)
      else if r.typeField = some "new_conversation" then
        ({ s with agent := none, current_config := none, current_mode_type := none },
         [.conversationReset], none)
      else if r.prompt = "" ∧ r.mode = "generate" then
        (s, [.error "Empty prompt"], none)
      else
        let s1 := { s with cancel_event := false }
        let mc := ModelConfig.from_request r.cfg
        let modeType := pyOrOpt r.mode_type (classify_mode_type r.mode r.context r.prompt)
        let textMessage := build_message r.prompt r.context r.mode
        let userMessage := build_multimodal_message b64 textMessage r.screenshot
        if rebuildNeeded s1 mc modeType then
          let fresh : AgentInst := ⟨s1.agentCounter, mc, modeType⟩
          ({ s1 with
              agent := some fresh
              current_config := some mc
              current_mode_type := some modeType
              agentCounter := s1.agentCounter + 1 },
           [],
           some { agentId := fresh.id, agentFresh := true, modeType := modeType
                  userMessage := userMessage, cancelAtStart := s1.cancel_event })
        else
          -- reuse branch: only the callback handler is swapped on the agent
          (s1,
           [],
           some { agentId := (s1.agent.map (·.id)).getD 0, agentFresh := false
                  modeType := modeType, userMessage := userMessage
                  cancelAtStart := s1.cancel_event })

/-- The fate of one scheduled WebSocket send as observed by
`StreamingCallbackHandler._send_ws_message`: the future resolves
successfully after `t` seconds, resolves with an exception after `t`
seconds, or never resolves. -/
inductive SendFate
  | completes (t : Nat)
  | failsAt (t : Nat)
  | never
deriving DecidableEq, Repr

/-- Seconds the handler blocks in `future.result(timeout=5.0)`
(server.py line 135): until resolution, capped at the 5-second bound. -/
def sendWait : SendFate → Nat
  | .completes t => min t 5
  | .failsAt t => min t 5
  | .never => 5

/-- Whether the handler saw the send complete: only a successful
resolution within the 5-second bound counts; an exception or a timeout is
logged and the message dropped (server.py lines 134-137). -/
def sendDelivered : SendFate → Bool
  | .completes t => t ≤ 5
  | .failsAt _ => false
  | .never => false

/-- The per-request state of `StreamingCallbackHandler`
(server.py lines 98-99). -/
structure HandlerState where
  token_count : Nat := 0
  first_token_seen : Bool := false
deriving DecidableEq, Repr

/-- Result of one callback invocation that did not raise: the new handler
state, the messages actually delivered, and the seconds spent blocked on
the send. -/
structure CallbackOut where
  state : HandlerState
  sent : List OutMsg
  wait : Nat
deriving DecidableEq, Repr

/-- `StreamingCallbackHandler.__call__` (server.py lines 102-125) for one
invocation carrying `data`.  If the cancel flag is observed set the
handler raises `CancellationError` (`Except.error ()`); otherwise
non-empty data increments the token counter and performs one bounded-wait
send; empty data does nothing. -/
def callbackStep (cancelSet : Bool) (st : HandlerState) (data : String)
    (fate : SendFate) : Except Unit CallbackOut :=
  if cancelSet then .error ()
  else if data ≠ "" then
    .ok { state := { token_count := st.token_count + 1, first_token_seen := true }
          sent := if sendDelivered fate then [.token data] else []
          wait := sendWait fate }
  else .ok { state := st, sent := [], wait := 0 }

/-- How the worker thread finished: a returned result, the
`CancellationError` raised via the callback or at thread start, or some
other exception from the agent. -/
inductive WorkerResult
  | value (t : String)
  | cancelRaised
  | exn (e : ExnInfo)
deriving DecidableEq, Repr

/-- Lift the opaque agent's own ending (return value or exception) to a
worker result. -/
def finishOutcome : Except ExnInfo String → WorkerResult
  | .ok t => .value t
  | .error e => .exn e

/-- Whether the shared cancel flag is observed set at callback index `i`,
given the index `cancelFrom` from which it is set (`none` = never set
while the worker runs). -/
def cancelSeen (cancelFrom : Option Nat) (i : Nat) : Bool :=
  match cancelFrom with
  | none => false
  | some k => k ≤ i

/-- Run the agent's callback invocations in order from index `i`,
accumulating delivered messages, until the script ends or the handler
raises `CancellationError` (third component `true`). -/
def runCallbacks (cancelFrom : Option Nat) :
    Nat → HandlerState → List (String × SendFate) → HandlerState × List OutMsg × Bool
  | _, st, [] => (st, [], false)
  | i, st, (d, f) :: rest =>
      match callbackStep (cancelSeen cancelFrom i) st d f with
      | .error _ => (st, [], true)
      | .ok o =>
          let r := runCallbacks cancelFrom (i + 1) o.state rest
          (r.1, o.sent ++ r.2.1, r.2.2)

/-- `_run_agent` (server.py lines 469-479) together with the agent's
streaming behaviour: if the cancel flag is already set at thread start,
`CancellationError` is raised before the agent is invoked; otherwise the
callback invocations of `script` run, and the run ends with the raised
cancellation or with the agent's own outcome. -/
def runWorker (cancelAtStart : Bool) (cancelFrom : Option Nat)
    (script : List (String × SendFate)) (outcome : Except ExnInfo String) :
    List OutMsg × WorkerResult :=
  if cancelAtStart then ([], .cancelRaised)
  else
    let r := runCallbacks cancelFrom 0 {} script
    (r.2.1, if r.2.2 then .cancelRaised else finishOutcome outcome)

/-- Result collection for one turn (server.py lines 404-461): the
timeout/grace path resets the agent and reports the timeout error;
otherwise the worker's ending maps to `done`, `cancelled`, or a
classified `error`.  `timedOut` is the 120-second ceiling having fired in
the listener loop; `graceFinished` is the worker task completing within
the 5-second `asyncio.wait` grace window. -/
def resolveTurn (timedOut graceFinished : Bool) (wr : WorkerResult)
    (s : Session) : Session × List OutMsg :=
  if timedOut ∧ ¬graceFinished then
    ({ s with agent := none, current_config := none, current_mode_type := none },
     [.error timeoutErrorContent])
  else
    match wr with
    | .value t => (s, [.done t])
    | .cancelRaised => (s, [.cancelled])
    | .exn e => (s, [.error (friendly_error e)])

/-- One full turn after it has been started: the worker streams tokens
(each send completing before the next callback runs, so all delivered
tokens precede the terminal), then the orchestrator resolves the turn
with exactly one terminal message.  Returns the post-turn session and the
turn's outbound messages in order. -/
def runTurn (timedOut graceFinished cancelAtStart : Bool)
    (cancelFrom : Option Nat) (script : List (String × SendFate))
    (outcome : Except ExnInfo String) (s : Session) : Session × List OutMsg :=
  let w := runWorker cancelAtStart cancelFrom script outcome
  let r := resolveTurn timedOut graceFinished w.2 s
  (r.1, w.1 ++ r.2)

/-- An inbound frame read by the concurrent listener while a turn is
running (server.py lines 369-402): a read error other than disconnect, a
JSON decode failure, or a parsed object with its `type` field. -/
inductive InnerMsg
  | readErr
  | malformed
  | parsed (typeField : Option String)
deriving DecidableEq, Repr

/-- The listener's handling of one inbound frame during generation
(server.py lines 369-402).  Only `cancel` and `new_conversation` have any
effect; nothing is ever sent from this loop. -/
def listenerStep (s : Session) (m : InnerMsg) : Session × List OutMsg :=
  match m with
  | .readErr => (s, [])
  | .malformed => (s, [])
  | .parsed t =>
      if t = some "cancel" then ({ s with cancel_event := true }, [])
      else if t = some "new_conversation" then
        ({ s with cancel_event := true, agent := none, current_config := none,
                  current_mode_type := none }, [])
      else (s, [])

/-- How the single-shot surface's agent behaves for one invocation:
return the generated text, or raise (this also covers `create_agent`
itself raising). -/
inductive AgentBehavior
  | succeed (text : String)
  | fail (e : ExnInfo)
deriving DecidableEq, Repr

/-- The body of a single-shot POST: unparsable JSON (with detail) or a
parsed object of the same request shape the streaming endpoint accepts. -/
inductive InvokeBody
  | badJson (detail : String)
  | ok (r : GenRequest)
deriving DecidableEq, Repr

/-- The agent invocation a single-shot request leads to: the chosen mode
type and the built user message. -/
structure InvokeCall where
  modeType : String
  userMessage : UserMessage
deriving DecidableEq, Repr

/-- The synchronous `/invocations` endpoint
(`ghosttype/agentcore/server.py` lines 111-183): HTTP status, response
record, and the agent call attempted (if validation passed).  The
response body is always of the `{type, content}` shape, `done` on
success, `error` otherwise. -/
def invocations (b64 : String → Option (List Nat)) (behavior : AgentBehavior)
    (body : InvokeBody) : Nat × OutMsg × Option InvokeCall :=
  match body with
  | .badJson detail => (400, .error ("Invalid JSON: " ++ detail), none)
  | .ok r =>
      if r.prompt = "" ∧ r.mode = "generate" then (400, .error "Empty prompt", none)
      else
        let modeType := pyOrOpt r.mode_type (classify_mode_type r.mode r.context r.prompt)
        let userMessage :=
          build_multimodal_message b64 (build_message r.prompt r.context r.mode) r.screenshot
        match behavior with
        | .succeed t => (200, .done t, some ⟨modeType, userMessage⟩)
        | .fail e => (500, .error (friendly_error e), some ⟨modeType, userMessage⟩)

/-- The rebuild condition as the spec's testable-properties section words
it: rebuild exactly when the effective (provider, model_id, aws_profile,
aws_region, mode_type) tuple of the request differs from the tuple the
bound handle was built with, or no handle is bound (which is also the
state `new_conversation` leaves behind).  This definition follows the
spec's words, for comparison with `rebuildNeeded`, which follows the
source. -/
def specRebuildNeeded (env : EnvConfig) (s : Session) (mc : ModelConfig)
    (modeType : String) : Bool :=
  match s.agent, s.current_config, s.current_mode_type with
  | some _, some pc, some pmt =>
      effectiveTuple env mc modeType ≠ effectiveTuple env pc pmt
  | _, _, _ => true

/-! ## Theorems -/

/-- A token message is never terminal. -/
theorem isToken_not_terminal (m : OutMsg) (h : isToken m = true) :
    isTerminal m = false := by
  cases m <;> simp_all [isToken, isTerminal]

/-- Every message a non-raising callback invocation delivers is a `token`
message. -/
theorem callbackStep_ok_sent (cancelSet : Bool) (st : HandlerState)
    (data : String) (fate : SendFate) (o : CallbackOut)
    (h : callbackStep cancelSet st data fate = .ok o) :
    ∀ m ∈ o.sent, isToken m = true := by
  unfold callbackStep at h
  split at h
  · exact absurd h (by simp)
  · split at h
    · injection h with h2
      subst h2
      intro m hm
      simp only at hm
      split at hm
      · simp only [List.mem_singleton] at hm
        subst hm
        rfl
      · simp at hm
    · injection h with h2
      subst h2
      intro m hm
      simp at hm

/-- Every message the worker's callback run delivers is a `token`
message. -/
theorem runCallbacks_sent_tokens (cancelFrom : Option Nat)
    (script : List (String × SendFate)) :
    ∀ (i : Nat) (st : HandlerState),
      ∀ m ∈ (runCallbacks cancelFrom i st script).2.1, isToken m = true := by
  induction script with
  | nil =>
      intro i st m hm
      simp [runCallbacks] at hm
  | cons p rest ih =>
      intro i st m hm
      obtain ⟨d, f⟩ := p
      simp only [runCallbacks] at hm
      cases hcb : callbackStep (cancelSeen cancelFrom i) st d f with
      | error e =>
          rw [hcb] at hm
          simp at hm
      | ok o =>
          rw [hcb] at hm
          simp only [List.mem_append] at hm
          rcases hm with hm | hm
          · exact callbackStep_ok_sent _ _ _ _ _ hcb m hm
          · exact ih (i + 1) o.state m hm

/-- Every message the worker delivers is a `token` message. -/
theorem runWorker_sent_tokens (cancelAtStart : Bool) (cancelFrom : Option Nat)
    (script : List (String × SendFate)) (outcome : Except ExnInfo String) :
    ∀ m ∈ (runWorker cancelAtStart cancelFrom script outcome).1,
      isToken m = true := by
  intro m hm
  unfold runWorker at hm
  split at hm
  · simp at hm
  · exact runCallbacks_sent_tokens cancelFrom script 0 {} m hm

/-- Turn resolution emits exactly one message, and it is terminal. -/
theorem resolveTurn_terminal (timedOut graceFinished : Bool)
    (wr : WorkerResult) (s : Session) :
    ∃ t, (resolveTurn timedOut graceFinished wr s).2 = [t] ∧
      isTerminal t = true := by
  unfold resolveTurn
  split
  · exact ⟨_, rfl, rfl⟩
  · cases wr <;> exact ⟨_, rfl, rfl⟩

/-- C1: for every turn handled by the streaming endpoint (over all cancel
schedules, send fates, timeout outcomes and agent behaviours the model
describes), the outbound message sequence of the turn is zero or more
`token` messages strictly followed by exactly one terminal message
(`done`, `error`, or `cancelled`); no `token` follows the terminal and no
second terminal exists. -/
theorem turn_stream_tokens_then_single_terminal
    (timedOut graceFinished cancelAtStart : Bool) (cancelFrom : Option Nat)
    (script : List (String × SendFate)) (outcome : Except ExnInfo String)
    (s : Session) :
    ∃ toks t,
      (runTurn timedOut graceFinished cancelAtStart cancelFrom script outcome s).2
        = toks ++ [t] ∧
      (∀ m ∈ toks, isToken m = true) ∧
      isTerminal t = true ∧
      (runTurn timedOut graceFinished cancelAtStart cancelFrom script outcome s).2.filter
          isTerminal = [t] := by
  obtain ⟨t, ht, htt⟩ :=
    resolveTurn_terminal timedOut graceFinished
      (runWorker cancelAtStart cancelFrom script outcome).2 s
  have hmsgs :
      (runTurn timedOut graceFinished cancelAtStart cancelFrom script outcome s).2
        = (runWorker cancelAtStart cancelFrom script outcome).1 ++ [t] := by
    simp only [runTurn]
    rw [ht]
  refine ⟨(runWorker cancelAtStart cancelFrom script outcome).1, t, hmsgs,
    runWorker_sent_tokens cancelAtStart cancelFrom script outcome, htt, ?_⟩
  rw [hmsgs, List.filter_append]
  have hnil : (runWorker cancelAtStart cancelFrom script outcome).1.filter
      isTerminal = [] := by
    refine List.filter_eq_nil_iff.mpr ?_
    intro m hm
    have := isToken_not_terminal m
      (runWorker_sent_tokens cancelAtStart cancelFrom script outcome m hm)
    simp [this]
  rw [hnil]
  simp [htt]

/-- A session with a bound agent, as it stands after a first completed
turn with all-default configuration and mode type `chat`; used as a
concrete state for counterexamples. -/
def boundSession : Session :=
  { agent := some ⟨0, {}, "chat"⟩
    current_config := some {}
    current_mode_type := some "chat"
    cancel_event := true
    agentCounter := 1 }

/-- C3 counterexample: a turn on which the 120-second timeout ceiling
fired (`timedOut = true`, cancel flag set) but whose worker completed
inside the 5-second grace window without observing the flag ends in a
`done` message — not a timeout `error` — and the bound handle survives,
so the next turn with unchanged config and mode type reuses it. -/
theorem timeout_turn_can_end_done :
    (runTurn true true false none [] (.ok "hi") boundSession).2
      = [OutMsg.done "hi"] ∧
    (runTurn true true false none [] (.ok "hi") boundSession).1 = boundSession ∧
    boundSession.agent.isSome = true ∧
    rebuildNeeded (runTurn true true false none [] (.ok "hi") boundSession).1
      {} "chat" = false := by
  refine ⟨rfl, rfl, rfl, ?_⟩
  decide

/-- C3 amended: for a turn on which the timeout ceiling fired and whose
worker did not complete within the 5-second grace window, the outbound
stream is zero or more tokens followed by exactly one `error` whose
content indicates a timeout, the handle is dropped, and the next turn
necessarily rebuilds it whatever the requested config and mode type;
moreover the ceiling fires exactly when elapsed time reaches
`GENERATION_TIMEOUT` = 120 s. -/
theorem timeout_grace_expiry_error_and_rebuild
    (cancelAtStart : Bool) (cancelFrom : Option Nat)
    (script : List (String × SendFate)) (outcome : Except ExnInfo String)
    (s : Session) :
    ∃ toks,
      (runTurn true false cancelAtStart cancelFrom script outcome s).2
        = toks ++ [.error timeoutErrorContent] ∧
      (∀ m ∈ toks, isToken m = true) ∧
      strHas timeoutErrorContent "timed out" = true ∧
      (runTurn true false cancelAtStart cancelFrom script outcome s).1.agent
        = none ∧
      (∀ mc modeType,
        rebuildNeeded (runTurn true false cancelAtStart cancelFrom script outcome s).1
          mc modeType = true) ∧
      (∀ elapsed : Int, timeoutTriggered elapsed = true ↔ GENERATION_TIMEOUT ≤ elapsed) := by
  refine ⟨(runWorker cancelAtStart cancelFrom script outcome).1, ?_, ?_, ?_, ?_, ?_, ?_⟩
  · simp only [runTurn, resolveTurn]
    rfl
  · exact runWorker_sent_tokens cancelAtStart cancelFrom script outcome
  · decide
  · simp only [runTurn, resolveTurn]
    rfl
  · intro mc modeType
    simp only [runTurn, resolveTurn]
    simp [rebuildNeeded]
  · intro elapsed
    simp only [timeoutTriggered, GENERATION_TIMEOUT, decide_eq_true_eq]
    omega

/-- The source's rebuild test holds exactly when no handle is bound or
the raw binding (dataclass-equality on `ModelConfig`, plus mode type)
differs from the request's. -/
theorem rebuildNeeded_eq_true_iff (s : Session) (mc : ModelConfig)
    (modeType : String) :
    rebuildNeeded s mc modeType = true ↔
      (s.agent = none ∨ s.current_config ≠ some mc ∨
       s.current_mode_type ≠ some modeType) := by
  simp [rebuildNeeded, decide_eq_true_eq, Option.isNone_iff_eq_none]

/-- Environment defaults whose provider matches the one the
counterexample's previous request supplied explicitly. -/
def envBedrock : EnvConfig := ⟨"bedrock", "m", "p", "r"⟩

/-- The configuration the bound handle was built with: every field given
explicitly. -/
def prevConfig : ModelConfig := ⟨"bedrock", "m", "p", "r"⟩

/-- A session whose handle is bound to `prevConfig` with mode type
`chat`. -/
def sessionBoundPrev : Session :=
  { agent := some ⟨0, prevConfig, "chat"⟩
    current_config := some prevConfig
    current_mode_type := some "chat"
    cancel_event := false
    agentCounter := 1 }

/-- A follow-up request identical in effect, but whose `config` dict
omits `provider` (so the raw field is `""` and the env default applies). -/
def reqOmitProvider : GenRequest :=
  { prompt := "hi"
    mode_type := some "chat"
    cfg := some { model_id := some "m", aws_profile := some "p", aws_region := some "r" } }

/-- On a generation request that passes dispatch and validation and whose
raw binding differs (or no handle is bound), the endpoint builds a fresh
agent. -/
theorem handleClientMsg_gen_rebuild (b64 : String → Option (List Nat))
    (s : Session) (r : GenRequest)
    (hc : r.typeField ≠ some "cancel")
    (hn : r.typeField ≠ some "new_conversation")
    (hv : ¬(r.prompt = "" ∧ r.mode = "generate"))
    (hreb : rebuildNeeded { s with cancel_event := false }
      (ModelConfig.from_request r.cfg)
      (pyOrOpt r.mode_type (classify_mode_type r.mode r.context r.prompt)) = true) :
    handleClientMsg b64 s (.parsed r) =
      ({ s with
          agent := some ⟨s.agentCounter, ModelConfig.from_request r.cfg,
            pyOrOpt r.mode_type (classify_mode_type r.mode r.context r.prompt)⟩
          current_config := some (ModelConfig.from_request r.cfg)
          current_mode_type :=
            some (pyOrOpt r.mode_type (classify_mode_type r.mode r.context r.prompt))
          cancel_event := false
          agentCounter := s.agentCounter + 1 },
       [],
       some { agentId := s.agentCounter
              agentFresh := true
              modeType := pyOrOpt r.mode_type (classify_mode_type r.mode r.context r.prompt)
              userMessage := build_multimodal_message b64
                (build_message r.prompt r.context r.mode) r.screenshot
              cancelAtStart := false }) := by
  simp only [handleClientMsg, if_neg hc, if_neg hn, if_neg hv, hreb, if_true]

/-- On a generation request that passes dispatch and validation and whose
raw binding matches, the endpoint reuses the bound agent: the session is
unchanged apart from the cleared cancel flag. -/
theorem handleClientMsg_gen_reuse (b64 : String → Option (List Nat))
    (s : Session) (r : GenRequest)
    (hc : r.typeField ≠ some "cancel")
    (hn : r.typeField ≠ some "new_conversation")
    (hv : ¬(r.prompt = "" ∧ r.mode = "generate"))
    (hreb : rebuildNeeded { s with cancel_event := false }
      (ModelConfig.from_request r.cfg)
      (pyOrOpt r.mode_type (classify_mode_type r.mode r.context r.prompt)) = false) :
    handleClientMsg b64 s (.parsed r) =
      ({ s with cancel_event := false },
       [],
       some { agentId := (s.agent.map (·.id)).getD 0
              agentFresh := false
              modeType := pyOrOpt r.mode_type (classify_mode_type r.mode r.context r.prompt)
              userMessage := build_multimodal_message b64
                (build_message r.prompt r.context r.mode) r.screenshot
              cancelAtStart := false }) := by
  simp only [handleClientMsg, if_neg hc, if_neg hn, if_neg hv, hreb,
    Bool.false_eq_true, if_false]

/-- C2 counterexample: the effective (provider, model_id, aws_profile,
aws_region, mode_type) tuple of `reqOmitProvider` equals the bound one,
and no `new_conversation` intervened, yet the endpoint builds a fresh
agent — the source compares raw `ModelConfig` fields, not effective
values. -/
theorem rebuild_despite_equal_effective_tuple :
    effectiveTuple envBedrock (ModelConfig.from_request reqOmitProvider.cfg) "chat"
      = effectiveTuple envBedrock prevConfig "chat" ∧
    specRebuildNeeded envBedrock sessionBoundPrev
      (ModelConfig.from_request reqOmitProvider.cfg) "chat" = false ∧
    rebuildNeeded sessionBoundPrev
      (ModelConfig.from_request reqOmitProvider.cfg) "chat" = true ∧
    ((handleClientMsg (fun _ => none) sessionBoundPrev
        (.parsed reqOmitProvider)).2.2.map (·.agentFresh)) = some true := by
  refine ⟨rfl, rfl, by decide, by decide⟩

/-- C2 amended: the handle is rebuilt if and only if no handle is bound
(in particular after `new_conversation`, which unconditionally unbinds
it) or the raw request config record (field-by-field dataclass equality,
before env-var fallbacks) or the mode type differs from the binding;
otherwise the bound instance is reused. -/
theorem rebuild_iff_raw_binding_differs (b64 : String → Option (List Nat))
    (s : Session) (r : GenRequest)
    (hc : r.typeField ≠ some "cancel")
    (hn : r.typeField ≠ some "new_conversation")
    (hv : ¬(r.prompt = "" ∧ r.mode = "generate")) :
    (∃ ts, (handleClientMsg b64 s (.parsed r)).2.2 = some ts ∧
      (ts.agentFresh = true ↔
        (s.agent = none ∨
         s.current_config ≠ some (ModelConfig.from_request r.cfg) ∨
         s.current_mode_type ≠
           some (pyOrOpt r.mode_type
             (classify_mode_type r.mode r.context r.prompt))))) ∧
    (∀ ts, (handleClientMsg b64 s (.parsed r)).2.2 = some ts →
      ts.agentFresh = false →
      (handleClientMsg b64 s (.parsed r)).1.agent = s.agent ∧
      s.agent.map (·.id) = some ts.agentId) ∧
    (∀ (s2 : Session) (r2 : GenRequest),
      r2.typeField = some "new_conversation" →
      (handleClientMsg b64 s2 (.parsed r2)).1.agent = none) := by
  have hraw : rebuildNeeded { s with cancel_event := false }
      (ModelConfig.from_request r.cfg)
      (pyOrOpt r.mode_type (classify_mode_type r.mode r.context r.prompt)) = true ↔
      (s.agent = none ∨
       s.current_config ≠ some (ModelConfig.from_request r.cfg) ∨
       s.current_mode_type ≠
         some (pyOrOpt r.mode_type (classify_mode_type r.mode r.context r.prompt))) :=
    rebuildNeeded_eq_true_iff _ _ _
  refine ⟨?_, ?_, ?_⟩
  · by_cases hreb : rebuildNeeded { s with cancel_event := false }
        (ModelConfig.from_request r.cfg)
        (pyOrOpt r.mode_type (classify_mode_type r.mode r.context r.prompt)) = true
    · rw [handleClientMsg_gen_rebuild b64 s r hc hn hv hreb]
      exact ⟨_, rfl, by simpa using hraw.mp hreb⟩
    · rw [handleClientMsg_gen_reuse b64 s r hc hn hv (by simpa using hreb)]
      refine ⟨_, rfl, ?_⟩
      simp only [Bool.false_eq_true, false_iff]
      intro hcontra
      exact hreb (hraw.mpr hcontra)
  · intro ts hts hfresh
    by_cases hreb : rebuildNeeded { s with cancel_event := false }
        (ModelConfig.from_request r.cfg)
        (pyOrOpt r.mode_type (classify_mode_type r.mode r.context r.prompt)) = true
    · rw [handleClientMsg_gen_rebuild b64 s r hc hn hv hreb] at hts
      simp only [Option.some.injEq] at hts
      rw [← hts] at hfresh
      simp at hfresh
    · have hreb2 : rebuildNeeded { s with cancel_event := false }
          (ModelConfig.from_request r.cfg)
          (pyOrOpt r.mode_type (classify_mode_type r.mode r.context r.prompt)) = false := by
        simpa using hreb
      rw [handleClientMsg_gen_reuse b64 s r hc hn hv hreb2] at hts ⊢
      simp only [Option.some.injEq] at hts
      have hnot := hreb
      rw [hraw] at hnot
      push_neg at hnot
      obtain ⟨hagent, _, _⟩ := hnot
      obtain ⟨a, ha⟩ := Option.ne_none_iff_exists'.mp hagent
      refine ⟨rfl, ?_⟩
      rw [← hts, ha]
      simp
  · intro s2 r2 h2
    have hnc : ¬(r2.typeField = some "cancel") := by
      rw [h2]
      decide
    simp only [handleClientMsg, if_neg hnc, if_pos h2]

/-- Witness for the amended C2 theorem at the counterexample's concrete
session and request. -/
theorem rebuild_iff_raw_binding_differs_check :
    (reqOmitProvider.typeField ≠ some "cancel") ∧
    (reqOmitProvider.typeField ≠ some "new_conversation") ∧
    (¬(reqOmitProvider.prompt = "" ∧ reqOmitProvider.mode = "generate")) ∧
    ((∃ ts, (handleClientMsg (fun _ => none) sessionBoundPrev
        (.parsed reqOmitProvider)).2.2 = some ts ∧
      (ts.agentFresh = true ↔
        (sessionBoundPrev.agent = none ∨
         sessionBoundPrev.current_config ≠
           some (ModelConfig.from_request reqOmitProvider.cfg) ∨
         sessionBoundPrev.current_mode_type ≠
           some (pyOrOpt reqOmitProvider.mode_type
             (classify_mode_type reqOmitProvider.mode reqOmitProvider.context
               reqOmitProvider.prompt))))) ∧
     (∀ ts, (handleClientMsg (fun _ => none) sessionBoundPrev
        (.parsed reqOmitProvider)).2.2 = some ts →
      ts.agentFresh = false →
      (handleClientMsg (fun _ => none) sessionBoundPrev
        (.parsed reqOmitProvider)).1.agent = sessionBoundPrev.agent ∧
      sessionBoundPrev.agent.map (·.id) = some ts.agentId) ∧
     (∀ (s2 : Session) (r2 : GenRequest),
      r2.typeField = some "new_conversation" →
      (handleClientMsg (fun _ => none) s2 (.parsed r2)).1.agent = none)) :=
  ⟨by decide, by decide, by decide,
   rebuild_iff_raw_binding_differs (fun _ => none) sessionBoundPrev reqOmitProvider
     (by decide) (by decide) (by decide)⟩

/-- A callback invocation never raises when the cancel flag is not
observed set. -/
theorem callbackStep_not_cancelled (st : HandlerState) (d : String) (f : SendFate) :
    ∃ o, callbackStep false st d f = .ok o := by
  unfold callbackStep
  simp only [Bool.false_eq_true, if_false]
  split
  · exact ⟨_, rfl⟩
  · exact ⟨_, rfl⟩

/-- With the cancel flag never set, the callback run never raises. -/
theorem runCallbacks_none_no_raise (script : List (String × SendFate)) :
    ∀ (i : Nat) (st : HandlerState),
      (runCallbacks none i st script).2.2 = false := by
  induction script with
  | nil =>
      intro i st
      simp [runCallbacks]
  | cons p rest ih =>
      intro i st
      obtain ⟨d, f⟩ := p
      obtain ⟨o, ho⟩ := callbackStep_not_cancelled st d f
      have hseen : cancelSeen none i = false := rfl
      simp only [runCallbacks, hseen]
      rw [ho]
      exact ih (i + 1) o.state

/-- C5: the classification returns `draft` exactly when mode is one of
rewrite, fix, translate or the context is non-empty, and `chat`
otherwise; an explicit non-empty `mode_type` field always takes
precedence over the classification, and the endpoint's chosen mode type
is exactly this override-or-classify value. -/
theorem classification_and_override (mode context prompt : String)
    (mtField : Option String) :
    (classify_mode_type mode context prompt = "draft" ↔
      (mode = "rewrite" ∨ mode = "fix" ∨ mode = "translate" ∨ context ≠ "")) ∧
    (classify_mode_type mode context prompt = "draft" ∨
     classify_mode_type mode context prompt = "chat") ∧
    (∀ v, mtField = some v → v ≠ "" →
      pyOrOpt mtField (classify_mode_type mode context prompt) = v) ∧
    ((mtField = none ∨ mtField = some "") →
      pyOrOpt mtField (classify_mode_type mode context prompt)
        = classify_mode_type mode context prompt) ∧
    (∀ (b64 : String → Option (List Nat)) (s : Session) (r : GenRequest)
        (ts : TurnStart),
      (handleClientMsg b64 s (.parsed r)).2.2 = some ts →
      ts.modeType = pyOrOpt r.mode_type
        (classify_mode_type r.mode r.context r.prompt)) := by
  refine ⟨?_, ?_, ?_, ?_, ?_⟩
  · unfold classify_mode_type
    split
    · next h => exact iff_of_true rfl (by tauto)
    · next h =>
      split
      · next h2 => exact iff_of_true rfl (by tauto)
      · next h2 => exact iff_of_false (by decide) (by tauto)
  · unfold classify_mode_type
    split
    · exact Or.inl rfl
    · split
      · exact Or.inl rfl
      · exact Or.inr rfl
  · intro v hv hne
    simp [pyOrOpt, hv, hne]
  · rintro (h | h) <;> simp [pyOrOpt, h]
  · intro b64 s r ts h
    by_cases hc : r.typeField = some "cancel"
    · simp [handleClientMsg, hc] at h
    by_cases hn : r.typeField = some "new_conversation"
    · simp [handleClientMsg, hc, hn] at h
    by_cases hv : r.prompt = "" ∧ r.mode = "generate"
    · simp [handleClientMsg, hc, hn, hv] at h
    by_cases hreb : rebuildNeeded { s with cancel_event := false }
        (ModelConfig.from_request r.cfg)
        (pyOrOpt r.mode_type (classify_mode_type r.mode r.context r.prompt)) = true
    · rw [handleClientMsg_gen_rebuild b64 s r hc hn hv hreb] at h
      simp only [Option.some.injEq] at h
      rw [← h]
    · rw [handleClientMsg_gen_reuse b64 s r hc hn hv (by simpa using hreb)] at h
      simp only [Option.some.injEq] at h
      rw [← h]

/-- Witness for the C5 theorem: explicit override used when non-empty,
classification used when the field is absent, endpoint mode type matches. -/
theorem classification_and_override_check :
    (some "draft" = some ("draft" : String)) ∧ ("draft" ≠ "") ∧
    pyOrOpt (some "draft") (classify_mode_type "generate" "" "hi") = "draft" ∧
    ((handleClientMsg (fun _ => none) {} (.parsed { prompt := "hi" })).2.2 =
      some { agentId := 0, agentFresh := true, modeType := "chat"
             userMessage := .text "hi", cancelAtStart := false }) ∧
    TurnStart.modeType
        { agentId := 0, agentFresh := true, modeType := "chat"
          userMessage := .text "hi", cancelAtStart := false }
      = pyOrOpt none (classify_mode_type "generate" "" "hi") :=
  ⟨rfl, by decide, (classification_and_override "generate" "" "hi" (some "draft")).2.2.1
      "draft" rfl (by decide),
   by decide,
   (classification_and_override "generate" "" "hi" none).2.2.2.2
     (fun _ => none) {} { prompt := "hi" } _ (by decide)⟩

/-- C7: an empty prompt with mode `generate` is rejected before any turn
starts — the server replies with exactly one `error` message, no
generation is started, and the whole session state (agent handle, bound
config, bound mode type, cancel flag) is unchanged; an empty prompt with
mode `fix` and non-empty context passes validation and starts a turn. -/
theorem empty_prompt_generate_rejected (b64 : String → Option (List Nat))
    (s : Session) (r : GenRequest)
    (hc : r.typeField ≠ some "cancel")
    (hn : r.typeField ≠ some "new_conversation")
    (hp : r.prompt = "") (hm : r.mode = "generate") :
    handleClientMsg b64 s (.parsed r) = (s, [.error "Empty prompt"], none) ∧
    (∀ (r2 : GenRequest), r2.typeField ≠ some "cancel" →
      r2.typeField ≠ some "new_conversation" → r2.prompt = "" →
      r2.mode = "fix" → r2.context ≠ "" →
      ∃ s2 ts, handleClientMsg b64 s (.parsed r2) = (s2, [], some ts)) := by
  constructor
  · simp only [handleClientMsg, if_neg hc, if_neg hn]
    rw [if_pos ⟨hp, hm⟩]
  · intro r2 h1 h2 h3 h4 h5
    have hv : ¬(r2.prompt = "" ∧ r2.mode = "generate") := by
      rintro ⟨_, hg⟩
      rw [h4] at hg
      exact absurd hg (by decide)
    by_cases hreb : rebuildNeeded { s with cancel_event := false }
        (ModelConfig.from_request r2.cfg)
        (pyOrOpt r2.mode_type (classify_mode_type r2.mode r2.context r2.prompt)) = true
    · exact ⟨_, _, handleClientMsg_gen_rebuild b64 s r2 h1 h2 hv hreb⟩
    · exact ⟨_, _, handleClientMsg_gen_reuse b64 s r2 h1 h2 hv (by simpa using hreb)⟩

/-- Witness for the C7 theorem: the all-defaults request (empty prompt,
mode `generate`) against the default session. -/
theorem empty_prompt_generate_rejected_check :
    (GenRequest.typeField {} ≠ some "cancel") ∧
    (GenRequest.typeField {} ≠ some "new_conversation") ∧
    (GenRequest.prompt {} = "") ∧ (GenRequest.mode {} = "generate") ∧
    (handleClientMsg (fun _ => none) {} (.parsed {}) =
      ({}, [.error "Empty prompt"], none) ∧
     (∀ (r2 : GenRequest), r2.typeField ≠ some "cancel" →
      r2.typeField ≠ some "new_conversation" → r2.prompt = "" →
      r2.mode = "fix" → r2.context ≠ "" →
      ∃ s2 ts, handleClientMsg (fun _ => none) {} (.parsed r2) = (s2, [], some ts))) :=
  ⟨by decide, by decide, rfl, rfl,
   empty_prompt_generate_rejected (fun _ => none) {} {} (by decide) (by decide) rfl rfl⟩

/-- The `{"type": "cancel"}` control frame as the endpoint parses it. -/
def cancelFrame : GenRequest := { typeField := some "cancel" }

/-- C8: a `cancel` control frame received between turns sends nothing
back and only sets the cancel flag; the next accepted generation request
clears the flag before the worker starts (`cancelAtStart = false`), and a
worker started with a clear flag that is never re-set resolves with the
agent's own outcome — never the cancellation outcome. -/
theorem stale_cancel_silent_and_cleared (b64 : String → Option (List Nat))
    (s : Session) (r : GenRequest)
    (hc : r.typeField ≠ some "cancel")
    (hn : r.typeField ≠ some "new_conversation")
    (hv : ¬(r.prompt = "" ∧ r.mode = "generate")) :
    handleClientMsg b64 s (.parsed cancelFrame) =
      ({ s with cancel_event := true }, [], none) ∧
    (∀ ts, (handleClientMsg b64 { s with cancel_event := true }
        (.parsed r)).2.2 = some ts → ts.cancelAtStart = false) ∧
    (∀ script outcome, (runWorker false none script outcome).2 = finishOutcome outcome) ∧
    (∀ outcome, finishOutcome outcome ≠ .cancelRaised) := by
  refine ⟨?_, ?_, ?_, ?_⟩
  · simp [handleClientMsg, cancelFrame]
  · intro ts hts
    by_cases hreb : rebuildNeeded
        { { s with cancel_event := true } with cancel_event := false }
        (ModelConfig.from_request r.cfg)
        (pyOrOpt r.mode_type (classify_mode_type r.mode r.context r.prompt)) = true
    · rw [handleClientMsg_gen_rebuild b64 _ r hc hn hv hreb] at hts
      simp only [Option.some.injEq] at hts
      rw [← hts]
    · rw [handleClientMsg_gen_reuse b64 _ r hc hn hv (by simpa using hreb)] at hts
      simp only [Option.some.injEq] at hts
      rw [← hts]
  · intro script outcome
    simp only [runWorker, Bool.false_eq_true, if_false]
    rw [runCallbacks_none_no_raise script 0 {}]
    simp
  · intro outcome
    cases outcome <;> simp [finishOutcome]

/-- Witness for the C8 theorem: default session, then the request
`{prompt := "x"}`. -/
theorem stale_cancel_silent_and_cleared_check :
    (GenRequest.typeField { prompt := "x" } ≠ some "cancel") ∧
    (GenRequest.typeField { prompt := "x" } ≠ some "new_conversation") ∧
    (¬(GenRequest.prompt { prompt := "x" } = "" ∧
       GenRequest.mode { prompt := "x" } = "generate")) ∧
    (handleClientMsg (fun _ => none) {} (.parsed cancelFrame) =
      ({ Session.mk none none none false 0 with cancel_event := true }, [], none) ∧
     (∀ ts, (handleClientMsg (fun _ => none)
        { Session.mk none none none false 0 with cancel_event := true }
        (.parsed { prompt := "x" })).2.2 = some ts → ts.cancelAtStart = false) ∧
     (∀ script outcome, (runWorker false none script outcome).2 = finishOutcome outcome) ∧
     (∀ outcome, finishOutcome outcome ≠ .cancelRaised)) :=
  ⟨by decide, by decide, by decide,
   stale_cancel_silent_and_cleared (fun _ => none) (Session.mk none none none false 0)
     { prompt := "x" } (by decide) (by decide) (by decide)⟩

/-- C9: with empty context, the rewrite/fix/translate modes return the
prompt verbatim; with non-empty context, each selects its fixed template
deterministically. -/
theorem build_message_templates (prompt context : String) (hctx : context ≠ "") :
    (build_message prompt "" "rewrite" = prompt ∧
     build_message prompt "" "fix" = prompt ∧
     build_message prompt "" "translate" = prompt) ∧
    build_message prompt context "rewrite" =
      "Rewrite the following text:\n\n" ++ context ++ "\n\nInstructions: " ++ prompt ∧
    build_message prompt context "fix" =
      "Fix grammar and spelling in the following text:\n\n" ++ context ∧
    build_message prompt context "translate" =
      "Translate the following text. " ++ prompt ++ "\n\n" ++ context := by
  refine ⟨⟨rfl, rfl, rfl⟩, ?_, ?_, ?_⟩
  · unfold build_message
    rw [if_pos ⟨rfl, hctx⟩]
  · unfold build_message
    rw [if_neg (by simp), if_pos ⟨rfl, hctx⟩]
  · unfold build_message
    rw [if_neg (by simp), if_neg (by simp), if_pos ⟨rfl, hctx⟩]

/-- Witness for the C9 theorem at concrete prompt and context. -/
theorem build_message_templates_check :
    (("Ths has errros" : String) ≠ "") ∧
    ((build_message "p" "" "rewrite" = "p" ∧
      build_message "p" "" "fix" = "p" ∧
      build_message "p" "" "translate" = "p") ∧
     build_message "p" "Ths has errros" "rewrite" =
       "Rewrite the following text:\n\n" ++ "Ths has errros" ++ "\n\nInstructions: " ++ "p" ∧
     build_message "p" "Ths has errros" "fix" =
       "Fix grammar and spelling in the following text:\n\n" ++ "Ths has errros" ∧
     build_message "p" "Ths has errros" "translate" =
       "Translate the following text. " ++ "p" ++ "\n\n" ++ "Ths has errros") :=
  ⟨by decide, build_message_templates "p" "Ths has errros" (by decide)⟩

/-- C10: while a turn is running, inbound frames whose parsed type is
neither `cancel` nor `new_conversation` — including malformed JSON,
read errors, and new generation requests (type absent) — are silently
discarded: no reply is sent, session state is untouched, and the
in-flight turn resolves exactly as it would have without them. -/
theorem listener_ignores_non_control (s : Session) (t : Option String)
    (h1 : t ≠ some "cancel") (h2 : t ≠ some "new_conversation") :
    listenerStep s (.parsed t) = (s, []) ∧
    listenerStep s .malformed = (s, []) ∧
    listenerStep s .readErr = (s, []) ∧
    (∀ (timedOut graceFinished cancelAtStart : Bool) (cancelFrom : Option Nat)
        (script : List (String × SendFate)) (outcome : Except ExnInfo String),
      runTurn timedOut graceFinished cancelAtStart cancelFrom script outcome
          (listenerStep s (.parsed t)).1 =
        runTurn timedOut graceFinished cancelAtStart cancelFrom script outcome s) := by
  have hp : listenerStep s (.parsed t) = (s, []) := by
    simp only [listenerStep, if_neg h1, if_neg h2]
  exact ⟨hp, rfl, rfl, fun _ _ _ _ _ _ => by rw [hp]⟩

/-- Witness for the C10 theorem: a generation-request-shaped frame
(no `type` field) during a turn. -/
theorem listener_ignores_non_control_check :
    ((none : Option String) ≠ some "cancel") ∧
    ((none : Option String) ≠ some "new_conversation") ∧
    (listenerStep {} (.parsed none) = ({}, []) ∧
     listenerStep {} .malformed = ({}, []) ∧
     listenerStep {} .readErr = ({}, []) ∧
     (∀ (timedOut graceFinished cancelAtStart : Bool) (cancelFrom : Option Nat)
        (script : List (String × SendFate)) (outcome : Except ExnInfo String),
      runTurn timedOut graceFinished cancelAtStart cancelFrom script outcome
          (listenerStep {} (.parsed none)).1 =
        runTurn timedOut graceFinished cancelAtStart cancelFrom script outcome {})) :=
  ⟨by decide, by decide,
   listener_ignores_non_control {} none (by decide) (by decide)⟩

/-- C4: the single-shot `/invocations` surface accepts the same
generation-request shape as the streaming endpoint (same classification
and message building) and synchronously returns a `{type, content}`
record that is always `done` or `error`: `done` with the generated text
on success, `error` with a classified message on failure, and `error`
without invoking the agent on validation failure. -/
theorem single_shot_done_or_error (b64 : String → Option (List Nat))
    (behavior : AgentBehavior) (body : InvokeBody) :
    (∃ content, (invocations b64 behavior body).2.1 = .done content ∨
       (invocations b64 behavior body).2.1 = .error content) ∧
    (∀ (r : GenRequest) t, ¬(r.prompt = "" ∧ r.mode = "generate") →
      invocations b64 (.succeed t) (.ok r) = (200, .done t,
        some ⟨pyOrOpt r.mode_type (classify_mode_type r.mode r.context r.prompt),
              build_multimodal_message b64 (build_message r.prompt r.context r.mode)
                r.screenshot⟩)) ∧
    (∀ (r : GenRequest) e, ¬(r.prompt = "" ∧ r.mode = "generate") →
      invocations b64 (.fail e) (.ok r) = (500, .error (friendly_error e),
        some ⟨pyOrOpt r.mode_type (classify_mode_type r.mode r.context r.prompt),
              build_multimodal_message b64 (build_message r.prompt r.context r.mode)
                r.screenshot⟩)) ∧
    (∀ (r : GenRequest), r.prompt = "" ∧ r.mode = "generate" →
      invocations b64 behavior (.ok r) = (400, .error "Empty prompt", none)) := by
  refine ⟨?_, ?_, ?_, ?_⟩
  · cases body with
    | badJson d => exact ⟨_, Or.inr rfl⟩
    | ok r =>
        simp only [invocations]
        by_cases hval : r.prompt = "" ∧ r.mode = "generate"
        · rw [if_pos hval]
          exact ⟨_, Or.inr rfl⟩
        · rw [if_neg hval]
          cases behavior with
          | succeed t => exact ⟨t, Or.inl rfl⟩
          | fail e => exact ⟨_, Or.inr rfl⟩
  · intro r t hval
    simp only [invocations, if_neg hval]
  · intro r e hval
    simp only [invocations, if_neg hval]
  · intro r hval
    simp only [invocations, if_pos hval]

/-- Witness for the C4 theorem: a concrete valid request succeeding with
text and failing with a rate-limit error. -/
theorem single_shot_done_or_error_check :
    (¬(GenRequest.prompt { prompt := "hi" } = "" ∧
       GenRequest.mode { prompt := "hi" } = "generate")) ∧
    invocations (fun _ => none) (.succeed "out") (.ok { prompt := "hi" }) =
      (200, .done "out",
       some ⟨pyOrOpt (GenRequest.mode_type { prompt := "hi" })
               (classify_mode_type (GenRequest.mode { prompt := "hi" })
                 (GenRequest.context { prompt := "hi" })
                 (GenRequest.prompt { prompt := "hi" })),
             build_multimodal_message (fun _ => none)
               (build_message (GenRequest.prompt { prompt := "hi" })
                 (GenRequest.context { prompt := "hi" })
                 (GenRequest.mode { prompt := "hi" }))
               (GenRequest.screenshot { prompt := "hi" })⟩) :=
  ⟨by decide,
   (single_shot_done_or_error (fun _ => none) (.succeed "out")
       (.ok { prompt := "hi" })).2.1 { prompt := "hi" } "out" (by decide)⟩

/-- C6: every callback invocation that enqueues a send waits on it with a
bounded wait (at most the 5-second bound, so the bridge never blocks
indefinitely); a send not resolving successfully within the bound is
dropped (nothing delivered) while the invocation still returns, and a
send completing within the bound is delivered before the invocation
returns. -/
theorem send_bounded_wait_and_drop (cancelSet : Bool) (st : HandlerState)
    (data : String) (fate : SendFate) :
    sendWait fate ≤ 5 ∧
    (∀ o, callbackStep cancelSet st data fate = .ok o →
      o.wait ≤ 5 ∧
      (sendDelivered fate = false → o.sent = []) ∧
      (sendDelivered fate = true → data ≠ "" → o.sent = [.token data])) ∧
    (cancelSet = false → ∃ o, callbackStep cancelSet st data fate = .ok o) := by
  refine ⟨?_, ?_, ?_⟩
  · cases fate <;> simp [sendWait]
  · intro o h
    unfold callbackStep at h
    split at h
    · exact absurd h (by simp)
    · split at h
      · injection h with h2
        subst h2
        refine ⟨?_, ?_, ?_⟩
        · cases fate <;> simp [sendWait]
        · intro hd
          simp [hd]
        · intro hd _
          simp [hd]
      · next hdata =>
        injection h with h2
        subst h2
        refine ⟨by simp, fun _ => rfl, fun _ hd => absurd (by simpa using hdata) hd⟩
  · intro hfalse
    subst hfalse
    exact callbackStep_not_cancelled st data fate

/-- Witness for the C6 theorem: a non-empty token whose send completes in
one second. -/
theorem send_bounded_wait_and_drop_check :
    sendWait (.completes 1) ≤ 5 ∧
    (∀ o, callbackStep false {} "tok" (.completes 1) = .ok o →
      o.wait ≤ 5 ∧
      (sendDelivered (.completes 1) = false → o.sent = []) ∧
      (sendDelivered (.completes 1) = true → ("tok" : String) ≠ "" →
        o.sent = [.token "tok"])) ∧
    ((false : Bool) = false → ∃ o, callbackStep false {} "tok" (.completes 1) = .ok o) :=
  send_bounded_wait_and_drop false {} "tok" (.completes 1)

end GhostType
